import Mathlib

/-!
Verification of an OpenAI-compatible reverse proxy (Deno/TypeScript).

The repository holds two sibling implementations of the proxy:
* `poe_server_模型映射版本.ts` (here called "file A"): model mapping via
  `mapModel`, request filtering via `filterRequestBody`, an image-generation
  emulator (`handleImageGeneration`), a chat forwarder
  (`handleChatCompletion`), a status→error-type table (`getErrorType`), and
  a `/v1/models` listing.
* the unnamed sibling (here called "file B"): `mapModelName` with a derived
  reverse mapping built by `loadModelMapping`.

JSON objects are shallowly embedded as association lists `List (String × JsVal)`
(JS object keys are unique and insertion-ordered); JS numbers are embedded as
`Rat` (the claims under study only involve order comparisons and small
integers, where rational and IEEE semantics agree); absent fields are `none`.
HTTP effects are embedded by splitting each handler at its single upstream
`fetch`: the phase before the call is a total function into either an
immediate `HttpResponse` (no upstream call) or the data of the outbound call,
and the phase after the call is a function of the upstream reply, supplied as
an oracle value.
-/

/-- Shallow embedding of a JSON value. -/
inductive JsVal where
  | null : JsVal
  | bool : Bool → JsVal
  | num : Rat → JsVal
  | str : String → JsVal
  | arr : List JsVal → JsVal
  | obj : List (String × JsVal) → JsVal

/-- An HTTP response as the proxy builds one with `jsonResponse`: a status
code and a JSON body (headers are fixed CORS/content-type plumbing and are
not modelled). -/
structure HttpResponse where
  status : Nat
  body : JsVal

/-- Character class of JavaScript regex `\s` (also the set stripped by
`String.prototype.trim`): ASCII whitespace, NBSP, the Unicode space
separators, line/paragraph separators and the BOM. -/
def jsWhitespace (c : Char) : Bool :=
  c == ' ' || c == '\t' || c == '\n' || c == '\r' ||
  c == '\x0b' || c == '\x0c' || c == '\u00A0' || c == '\u1680' ||
  (0x2000 ≤ c.toNat && c.toNat ≤ 0x200A) ||
  c == '\u2028' || c == '\u2029' || c == '\u202F' || c == '\u205F' ||
  c == '\u3000' || c == '\uFEFF'

/-- `leadsWith pat s` holds when `pat` is an initial segment of `s`
(char-by-char comparison, as a JS literal regex/string match does). -/
def leadsWith : List Char → List Char → Bool
  | [], _ => true
  | _ :: _, [] => false
  | p :: ps, c :: cs => p == c && leadsWith ps cs

/-- `replaceFirstAux pat s` removes the first occurrence of `pat` from `s`,
embedding JS `s.replace(pat, "")` for a string pattern (which replaces only
the first occurrence, anywhere in the string). -/
def replaceFirstAux (pat : List Char) : List Char → List Char
  | [] => []
  | c :: rest =>
    if leadsWith pat (c :: rest) then (c :: rest).drop pat.length
    else c :: replaceFirstAux pat rest

/-- JS `s.replace(pat, "")` on strings (first occurrence only). -/
def jsReplaceFirst (pat s : String) : String :=
  ⟨replaceFirstAux pat.data s.data⟩

/-- JS `s.trim()`: strip `\s`-class characters from both ends. -/
def jsTrim (s : List Char) : List Char :=
  ((s.dropWhile jsWhitespace).reverse.dropWhile jsWhitespace).reverse

/-- JS `s.trim()` packaged on `String`. -/
def jsTrimS (s : String) : String :=
  ⟨jsTrim s.data⟩

/-- A character the regex `[^\s\)]` accepts: neither `\s`-class nor `)`. -/
def urlChar (c : Char) : Bool :=
  !(jsWhitespace c || c == ')')

/-- The literal part of the URL regex `/https:\/\/[^\s\)]+/g`. -/
def httpsLit : List Char :=
  ['h', 't', 't', 'p', 's', ':', '/', '/']

/-- Fuel-indexed scan for `/https:\/\/[^\s\)]+/g`: returns the list of
matches (leftmost, non-overlapping, greedy) and the input with every match
deleted (JS `content.match(re)` paired with `content.replace(re, '')`).
Each step consumes at least one character, so fuel = input length suffices;
`scanUrls` below instantiates it that way. -/
def scanUrlsGo : Nat → List Char → List (List Char) × List Char
  | 0, s => ([], s)
  | _ + 1, [] => ([], [])
  | fuel + 1, c :: rest =>
    if leadsWith httpsLit (c :: rest) then
      if (((c :: rest).drop httpsLit.length).takeWhile urlChar).isEmpty then
        ((scanUrlsGo fuel rest).1, c :: (scanUrlsGo fuel rest).2)
      else
        ((httpsLit ++ ((c :: rest).drop httpsLit.length).takeWhile urlChar)
            :: (scanUrlsGo fuel
                  (((c :: rest).drop httpsLit.length).dropWhile urlChar)).1,
         (scanUrlsGo fuel
            (((c :: rest).drop httpsLit.length).dropWhile urlChar)).2)
    else
      ((scanUrlsGo fuel rest).1, c :: (scanUrlsGo fuel rest).2)

/-- All matches of the URL regex in `s`, and `s` with the matches removed. -/
def scanUrls (s : List Char) : List (List Char) × List Char :=
  scanUrlsGo s.length s

/-- File A, `mapModel`: `modelMapping[model] || model`. The JS `||` makes a
key whose mapped value is the empty string (falsy) fall back to the key
itself. The mapping object is embedded as an association list with unique
keys. -/
def mapModel (m : List (String × String)) (model : String) : String :=
  match m.lookup model with
  | some v => if v = "" then model else v
  | none => model

/-- Truthiness of `obj[key]` for a string-valued JS object: the key is
present and its value is a nonempty string. -/
def truthyLookup (o : List (String × String)) (k : String) : Bool :=
  match o.lookup k with
  | some v => v != ""
  | none => false

/-- File B, `mapModelName`: try the direct mapping, then the reverse mapping
(in which case the input is already an upstream name and is returned
unchanged), else return the input unchanged. -/
def mapModelName (m rev : List (String × String)) (inputModel : String) : String :=
  if truthyLookup m inputModel then (m.lookup inputModel).getD inputModel
  else if truthyLookup rev inputModel then inputModel
  else inputModel

/-- File B, the loop in `loadModelMapping` body: `reverse[value] = key` for
each entry, in insertion order. JS property assignment overwrites in place
when the property exists and appends otherwise. -/
def objInsert (o : List (String × String)) (k v : String) : List (String × String) :=
  if (o.lookup k).isSome then o.map fun p => if p.1 = k then (k, v) else p
  else o ++ [(k, v)]

/-- File B, `loadModelMapping`: the derived reverse mapping
(upstream-name → caller-name). -/
def buildReverse (m : List (String × String)) : List (String × String) :=
  m.foldl (fun acc p => objInsert acc p.2 p.1) []

/-- A caller-supplied chat-completions body, typed view: the whitelisted
fields (absent = `none`) plus every other field in `extra`. `model` is a
string and `temperature` a number, as the handlers use them. -/
structure ChatBody where
  model : Option String
  messages : Option JsVal
  max_tokens : Option JsVal
  max_completion_tokens : Option JsVal
  stream : Option JsVal
  stream_options : Option JsVal
  top_p : Option JsVal
  stop : Option JsVal
  temperature : Option Rat
  n : Option JsVal
  extra : List (String × JsVal)

/-- `Math.min(Math.max(t, 0), 2)` from `filterRequestBody`. -/
def clampTemperature (t : Rat) : Rat :=
  min (max t 0) 2

/-- File A, the `supported` object literal in `filterRequestBody`, before
`Object.entries`/`fromEntries`: each whitelisted key paired with its
(possibly `undefined`) value. `body.temperature ? clamp : undefined` is JS
truthiness: a present temperature of `0` is falsy and becomes `undefined`. -/
def supportedEntries (m : List (String × String)) (body : ChatBody) :
    List (String × Option JsVal) :=
  [("model", body.model.map fun s => JsVal.str (mapModel m s)),
   ("messages", body.messages),
   ("max_tokens", body.max_tokens),
   ("max_completion_tokens", body.max_completion_tokens),
   ("stream", body.stream),
   ("stream_options", body.stream_options),
   ("top_p", body.top_p),
   ("stop", body.stop),
   ("temperature",
     match body.temperature with
     | some t => if t = 0 then none else some (JsVal.num (clampTemperature t))
     | none => none),
   ("n", some (JsVal.num 1))]

/-- File A, `filterRequestBody`:
`Object.fromEntries(Object.entries(supported).filter(([_, v]) => v !== undefined))`. -/
def filterRequestBody (m : List (String × String)) (body : ChatBody) :
    List (String × JsVal) :=
  (supportedEntries m body).filterMap fun p => p.2.map fun v => (p.1, v)

/-- The supported-field whitelist of `filterRequestBody`. -/
def whitelist : List String :=
  ["model", "messages", "max_tokens", "max_completion_tokens", "stream",
   "stream_options", "top_p", "stop", "temperature", "n"]

/-- File A, `getToken`:
`req.headers.get("authorization")?.replace("Bearer ", "")`. The optional
chaining maps over an absent header; no prefix check is performed, only the
first occurrence of the literal `"Bearer "` is deleted. -/
def getToken (auth : Option String) : Option String :=
  auth.map fun s => jsReplaceFirst "Bearer " s

/-- The `401 {error: {message: "Missing Bearer token"}}` response both
forwarding handlers return when `getToken` yields a falsy value. -/
def missingTokenResponse : HttpResponse :=
  ⟨401, .obj [("error", .obj [("message", .str "Missing Bearer token")])]⟩

/-- Outcome of `handleChatCompletion` up to its upstream `fetch`: either an
immediate response (no upstream call) or the outbound forwarding data. -/
inductive ChatStep where
  | respond : HttpResponse → ChatStep
  | forward : String → List (String × JsVal) → ChatStep

/-- File A, `handleChatCompletion`, the phase before the upstream `fetch`:
token extraction, the `if (!token)` guard (falsy = absent or empty string),
and body filtering. -/
def handleChatCompletion (m : List (String × String)) (auth : Option String)
    (body : ChatBody) : ChatStep :=
  match getToken auth with
  | none => .respond missingTokenResponse
  | some t =>
    if t = "" then .respond missingTokenResponse
    else .forward t (filterRequestBody m body)

/-- A caller-supplied image-generation body: `{prompt, size?}`. -/
structure ImageBody where
  prompt : String
  size : Option String

/-- Truthiness of `reqBody.size`: present and a nonempty string. -/
def sizeTruthy (o : Option String) : Bool :=
  match o with
  | some s => s != ""
  | none => false

/-- File A, the `400 invalid_size` response of `handleImageGeneration`. -/
def invalidSizeResponse (sz : String) : HttpResponse :=
  ⟨400, .obj [("error", .obj
    [("message", .str ("Invalid size: " ++ sz ++ ". Only 1024x1024 is supported.")),
     ("type", .str "invalid_request_error"),
     ("param", .str "size"),
     ("code", .str "invalid_size")])]⟩

/-- File A, the disguised chat request `handleImageGeneration` builds:
`filterRequestBody({model: "dall-e-3", messages: [{role: "user", content:
prompt}], max_tokens: 1000})`. -/
def imageChatRequest (m : List (String × String)) (prompt : String) :
    List (String × JsVal) :=
  filterRequestBody m
    ⟨some "dall-e-3",
     some (.arr [.obj [("role", .str "user"), ("content", .str prompt)]]),
     some (.num 1000), none, none, none, none, none, none, none, []⟩

/-- Outcome of `handleImageGeneration` up to its upstream `fetch`: either an
immediate response (no upstream call) or the outbound call data, with the
effective `size` after the default was applied. -/
inductive ImageStep where
  | respond : HttpResponse → ImageStep
  | callUpstream : String → String → List (String × JsVal) → ImageStep

/-- File A, `handleImageGeneration`, the phase before the upstream `fetch`:
token guard, then `if (reqBody.size)` (JS truthiness: an empty-string size
is falsy and takes the default branch), rejecting any truthy size other than
`"1024x1024"` and defaulting an absent one. -/
def handleImageGenerationPhase (m : List (String × String))
    (auth : Option String) (body : ImageBody) : ImageStep :=
  match getToken auth with
  | none => .respond missingTokenResponse
  | some t =>
    if t = "" then .respond missingTokenResponse
    else if sizeTruthy body.size then
      if body.size.getD "" ≠ "1024x1024" then
        .respond (invalidSizeResponse (body.size.getD ""))
      else .callUpstream t (body.size.getD "") (imageChatRequest m body.prompt)
    else .callUpstream t "1024x1024" (imageChatRequest m body.prompt)

/-- File A, `getErrorType`: the fixed status→error-type table,
`errorMap[status] || "unknown_error"` (every table value is nonempty, so the
`||` only supplies the default for statuses outside the table). -/
def getErrorType (status : Nat) : String :=
  if status = 400 then "invalid_request_error"
  else if status = 401 then "authentication_error"
  else if status = 402 then "insufficient_credits"
  else if status = 403 then "moderation_error"
  else if status = 404 then "not_found_error"
  else if status = 408 then "timeout_error"
  else if status = 413 then "request_too_large"
  else if status = 429 then "rate_limit_error"
  else if status = 502 then "upstream_error"
  else if status = 529 then "overloaded_error"
  else "unknown_error"

/-- The upstream reply, as the oracle value for the phase after `fetch`:
the HTTP status, `errorData.error?.message` from the error-path JSON parse
(`none` when the body failed to parse or lacks the path), and
`chatResponse.choices?.[0]?.message?.content` from the success-path parse. -/
structure UpstreamReply where
  status : Nat
  errorMessage : Option String
  content : Option String

/-- `Response.ok` of the Fetch API: status in the inclusive range 200–299. -/
def responseOk (status : Nat) : Bool :=
  200 ≤ status && status ≤ 299

/-- `errorData.error?.message || "Upstream API error"`: JS truthiness makes
an absent or empty upstream message fall back to the fixed text. -/
def upstreamErrorMessage (msg : Option String) : String :=
  match msg with
  | some s => if s = "" then "Upstream API error" else s
  | none => "Upstream API error"

/-- File A, the non-2xx branch of `handleImageGeneration` after `fetch`. -/
def imageErrorResponse (status : Nat) (msg : Option String) : HttpResponse :=
  ⟨status, .obj [("error", .obj
    [("message", .str (upstreamErrorMessage msg)),
     ("type", .str (getErrorType status))])]⟩

/-- File A, the 2xx branch of `handleImageGeneration` after `fetch`:
`content.match(re)?.[0] || ""` for the URL, `content.replace(re, '').trim()`
for the description, falling back to the original prompt when that is falsy
(empty) or shorter than 10 characters. -/
def imageSuccessResponse (now : Nat) (prompt content : String) : HttpResponse :=
  let scanned := scanUrls content.data
  let imageUrl : String := match scanned.1.head? with
    | some u => ⟨u⟩
    | none => ""
  let revised0 : String := ⟨jsTrim scanned.2⟩
  let revisedPrompt := if revised0 = "" ∨ revised0.length < 10 then prompt else revised0
  ⟨200, .obj [("created", .num now),
    ("data", .arr [.obj [("revised_prompt", .str revisedPrompt),
                         ("url", .str imageUrl)]])]⟩

/-- File A, `handleImageGeneration`, the phase after the upstream `fetch`:
dispatch on `response.ok` (`content || ""` makes an absent content the empty
string on the success path). -/
def handleImageUpstream (now : Nat) (prompt : String) (u : UpstreamReply) :
    HttpResponse :=
  if responseOk u.status then imageSuccessResponse now prompt (u.content.getD "")
  else imageErrorResponse u.status u.errorMessage

/-- File A, `handleImageGeneration` end to end, with the upstream reply
supplied as an oracle: the pre-`fetch` phase either responds immediately or
the post-`fetch` phase shapes the upstream reply. -/
def handleImageGeneration (m : List (String × String)) (auth : Option String)
    (body : ImageBody) (now : Nat) (u : UpstreamReply) : HttpResponse :=
  match handleImageGenerationPhase m auth body with
  | .respond r => r
  | .callUpstream _ _ _ => handleImageUpstream now body.prompt u

/-- File A, the model-identifier list of `GET /v1/models`:
`[...Object.keys(modelMapping), "dall-e-3"]`. -/
def modelIds (m : List (String × String)) : List String :=
  m.map Prod.fst ++ ["dall-e-3"]

/-- File A, one item of the `GET /v1/models` listing. -/
def modelItem (now : Nat) (id : String) : JsVal :=
  .obj [("id", .str id), ("object", .str "model"),
        ("created", .num now), ("owned_by", .str "proxy")]

/-- File A, the `GET /v1/models` response. -/
def modelsResponse (m : List (String × String)) (now : Nat) : HttpResponse :=
  ⟨200, .obj [("object", .str "list"),
              ("data", .arr ((modelIds m).map (modelItem now)))]⟩

def emptyChat : ChatBody :=
  ⟨none, none, none, none, none, none, none, none, none, none, []⟩

def temp11Chat : ChatBody :=
  ⟨none, none, none, none, none, none, none, none, some (11/10), none, []⟩

def tempZeroChat : ChatBody :=
  ⟨none, none, none, none, none, none, none, none, some 0, none, []⟩

/-! ## Helper lemmas and claim theorems -/

theorem lookup_pack_of_not_mem {β : Type} (entries : List (String × Option β))
    (k : String) (h : k ∉ entries.map Prod.fst) :
    (entries.filterMap fun p => p.2.map fun v => (p.1, v)).lookup k = none := by
  induction entries with
  | nil => rfl
  | cons p rest ih =>
    simp only [List.map_cons, List.mem_cons, not_or] at h
    obtain ⟨h1, h2⟩ := h
    cases hv : p.2 with
    | none => simpa [List.filterMap_cons, hv] using ih h2
    | some v =>
      simp only [List.filterMap_cons, hv, Option.map_some', List.lookup_cons]
      have : (k == p.1) = false := beq_false_of_ne h1
      simp [this, ih h2]

theorem lookup_pack {β : Type} (entries : List (String × Option β)) (k : String)
    (hnd : (entries.map Prod.fst).Nodup) :
    (entries.filterMap fun p => p.2.map fun v => (p.1, v)).lookup k
      = (entries.lookup k).bind id := by
  induction entries with
  | nil => rfl
  | cons p rest ih =>
    obtain ⟨a, ov⟩ := p
    simp only [List.map_cons, List.nodup_cons] at hnd
    obtain ⟨hp, hrest⟩ := hnd
    by_cases hk : k = a
    · subst hk
      cases ov with
      | none =>
        simp only [List.filterMap_cons, Option.map_none', List.lookup_cons,
          beq_self_eq_true, Option.bind_eq_bind, Option.some_bind, id_eq]
        exact lookup_pack_of_not_mem rest k hp
      | some v =>
        simp [List.filterMap_cons, List.lookup_cons]
    · have hb : (k == a) = false := beq_false_of_ne hk
      cases ov with
      | none =>
        simp only [List.filterMap_cons, Option.map_none', List.lookup_cons, hb]
        exact ih hrest
      | some v =>
        simp only [List.filterMap_cons, Option.map_some', List.lookup_cons, hb]
        exact ih hrest

theorem supportedEntries_keys (m : List (String × String)) (body : ChatBody) :
    (supportedEntries m body).map Prod.fst = whitelist := rfl

theorem filterRequestBody_lookup (m : List (String × String)) (body : ChatBody)
    (k : String) :
    (filterRequestBody m body).lookup k = ((supportedEntries m body).lookup k).bind id := by
  have hnd : ((supportedEntries m body).map Prod.fst).Nodup := by
    rw [supportedEntries_keys]; decide
  exact lookup_pack (supportedEntries m body) k hnd

/-- The two sibling resolvers agree: file B's `mapModelName` never actually
uses its reverse mapping for the result (both its reverse branch and its
fallback return the input), so it equals file A's `mapModel`. -/
theorem mapModelName_eq_mapModel (m rev : List (String × String)) (x : String) :
    mapModelName m rev x = mapModel m x := by
  unfold mapModelName mapModel truthyLookup
  cases h : m.lookup x with
  | none => simp [h]
  | some v =>
    by_cases hv : v = ""
    · subst hv; simp [h]
    · simp [h, hv]

/-- Claim C1 (amended): model-name resolution maps a key to its mapped value
provided that value is nonempty (a key mapped to the empty string resolves
to itself, because JS `||` treats the empty string as falsy); a name that is
a value of the mapping but not a key is returned unchanged; a name that is
neither is returned unchanged — no name is ever rejected. File B's
`mapModelName` coincides with file A's `mapModel`. -/
theorem mapModel_three_case_contract (m rev : List (String × String))
    (name : String) :
    (∀ v, m.lookup name = some v → v ≠ "" → mapModel m name = v) ∧
    (m.lookup name = none → name ∈ m.map Prod.snd → mapModel m name = name) ∧
    (m.lookup name = none → name ∉ m.map Prod.snd → mapModel m name = name) ∧
    (m.lookup name = some "" → mapModel m name = name) ∧
    mapModelName m rev name = mapModel m name := by
  refine ⟨?_, ?_, ?_, ?_, mapModelName_eq_mapModel m rev name⟩
  · intro v hv hne; simp [mapModel, hv, hne]
  · intro h _; simp [mapModel, h]
  · intro h _; simp [mapModel, h]
  · intro h; simp [mapModel, h]

/-- Claim C1 counterexample: with the mapping `{"a": ""}`, `"a"` is a key
whose mapped value is the empty string, yet `mapModel` returns `"a"` rather
than the mapped value `""` — so "for every key, resolve returns the mapped
value" fails on the code. -/
theorem mapModel_key_not_mapped_cex :
    List.lookup "a" [("a", "")] = some "" ∧
    mapModel [("a", "")] "a" = "a" ∧ ("a" : String) ≠ "" :=
  ⟨rfl, rfl, by decide⟩

/-- Claim C1 witness: the contract at the mapping `{"a": "b"}` for a key, a
value, and an unknown name. -/
theorem mapModel_three_case_contract_w :
    mapModel [("a", "b")] "a" = "b" ∧ mapModel [("a", "b")] "b" = "b" ∧
    mapModel [("a", "b")] "u" = "u" :=
  ⟨(mapModel_three_case_contract [("a", "b")] [] "a").1 "b" rfl (by decide),
   (mapModel_three_case_contract [("a", "b")] [] "b").2.1 rfl (by decide),
   (mapModel_three_case_contract [("a", "b")] [] "u").2.2.1 rfl (by decide)⟩

/-- Claim C2 (amended): the filtered body is the whitelist projection of the
input except for the two specially handled fields: every whitelisted field
other than `temperature` and `n` appears in the output iff it is present in
the input, with its input value (`model` resolved through the mapping);
`temperature` appears iff present with a nonzero value (clamped); `n` always
appears with value 1; every non-whitelisted field is dropped without error;
an absent field is absent from the output, never defaulted to null. -/
theorem filterRequestBody_whitelist_projection (m : List (String × String))
    (body : ChatBody) :
    (filterRequestBody m body).lookup "model"
      = body.model.map (fun s => JsVal.str (mapModel m s)) ∧
    (filterRequestBody m body).lookup "messages" = body.messages ∧
    (filterRequestBody m body).lookup "max_tokens" = body.max_tokens ∧
    (filterRequestBody m body).lookup "max_completion_tokens"
      = body.max_completion_tokens ∧
    (filterRequestBody m body).lookup "stream" = body.stream ∧
    (filterRequestBody m body).lookup "stream_options" = body.stream_options ∧
    (filterRequestBody m body).lookup "top_p" = body.top_p ∧
    (filterRequestBody m body).lookup "stop" = body.stop ∧
    (filterRequestBody m body).lookup "temperature"
      = (match body.temperature with
         | some t => if t = 0 then none else some (JsVal.num (clampTemperature t))
         | none => none) ∧
    (filterRequestBody m body).lookup "n" = some (JsVal.num 1) ∧
    (∀ k, k ∉ whitelist → (filterRequestBody m body).lookup k = none) := by
  refine ⟨?_, ?_, ?_, ?_, ?_, ?_, ?_, ?_, ?_, ?_, ?_⟩
  · rw [filterRequestBody_lookup]; rfl
  · rw [filterRequestBody_lookup]; rfl
  · rw [filterRequestBody_lookup]; rfl
  · rw [filterRequestBody_lookup]; rfl
  · rw [filterRequestBody_lookup]; rfl
  · rw [filterRequestBody_lookup]; rfl
  · rw [filterRequestBody_lookup]; rfl
  · rw [filterRequestBody_lookup]; rfl
  · rw [filterRequestBody_lookup]; rfl
  · rw [filterRequestBody_lookup]; rfl
  · intro k hk
    refine lookup_pack_of_not_mem (supportedEntries m body) k ?_
    rw [supportedEntries_keys]
    exact hk

/-- Claim C2 counterexample: on the empty input body, the whitelisted field
`n` is absent from the input yet present in the output (forced to 1), so
"a whitelisted field appears in the output iff it is present in the input"
fails on the code. -/
theorem filterRequestBody_not_projection_cex :
    emptyChat.n = none ∧
    filterRequestBody [] emptyChat = [("n", JsVal.num 1)] ∧
    ((filterRequestBody [] emptyChat).lookup "n").isSome = true :=
  ⟨rfl, rfl, rfl⟩

/-- Claim C2 witness: on the empty body, a non-whitelisted field (`tools`)
and an absent whitelisted field (`messages`) are both absent from the
output, and `model` is absent as well. -/
theorem filterRequestBody_whitelist_projection_w :
    (filterRequestBody [] emptyChat).lookup "tools" = none ∧
    (filterRequestBody [] emptyChat).lookup "messages" = none ∧
    (filterRequestBody [] emptyChat).lookup "model" = none :=
  ⟨(filterRequestBody_whitelist_projection [] emptyChat).2.2.2.2.2.2.2.2.2.2
      "tools" (by decide),
   (filterRequestBody_whitelist_projection [] emptyChat).2.1,
   (filterRequestBody_whitelist_projection [] emptyChat).1⟩

/-- Claim C3 (amended): when `temperature` is present and nonzero, the
filtered body carries `Math.min(Math.max(t, 0), 2)`, which lies in [0, 2]
(5 becomes 2, -1 becomes 0, 1.1 stays 1.1) — out-of-range values are
clamped, never rejected; but a present `temperature` of exactly 0 is falsy
in JS and is dropped from the filtered body instead of being kept. -/
theorem temperature_clamped (m : List (String × String)) (body : ChatBody)
    (t : Rat) :
    (body.temperature = some t → t ≠ 0 →
      (filterRequestBody m body).lookup "temperature"
        = some (JsVal.num (clampTemperature t)) ∧
      0 ≤ clampTemperature t ∧ clampTemperature t ≤ 2) ∧
    (body.temperature = some 0 →
      (filterRequestBody m body).lookup "temperature" = none) ∧
    clampTemperature 5 = 2 ∧ clampTemperature (-1) = 0 ∧
    clampTemperature (11/10) = 11/10 := by
  refine ⟨?_, ?_, ?_, ?_, ?_⟩
  · intro ht hne
    refine ⟨?_, ?_, ?_⟩
    · rw [filterRequestBody_lookup]
      have hsup : (supportedEntries m body).lookup "temperature"
          = some (match body.temperature with
                  | some t => if t = 0 then none
                              else some (JsVal.num (clampTemperature t))
                  | none => none) := rfl
      rw [hsup, ht]
      simp [hne]
    · exact le_min (le_max_right t 0) (by norm_num)
    · exact min_le_right _ _
  · intro ht
    rw [filterRequestBody_lookup]
    have hsup : (supportedEntries m body).lookup "temperature"
        = some (match body.temperature with
                | some t => if t = 0 then none
                            else some (JsVal.num (clampTemperature t))
                | none => none) := rfl
    rw [hsup, ht]
    simp
  · norm_num [clampTemperature]
  · norm_num [clampTemperature]
  · norm_num [clampTemperature, min_def, max_def]

/-- Claim C3 counterexample: an input with `temperature: 0` has temperature
present, yet the filtered body contains no temperature at all (JS truthiness
drops the falsy 0), so "the filtered body contains a temperature value in
[0, 2]" fails on the code for that input. -/
theorem temperature_zero_dropped_cex :
    tempZeroChat.temperature = some 0 ∧
    (filterRequestBody [] tempZeroChat).lookup "temperature" = none ∧
    filterRequestBody [] tempZeroChat = [("n", JsVal.num 1)] := by
  refine ⟨rfl, ?_, ?_⟩ <;> rfl

/-- Claim C3 witness: the clamp at the in-range input 1.1 on a concrete
body. -/
theorem temperature_clamped_w :
    (filterRequestBody [] temp11Chat).lookup "temperature"
      = some (JsVal.num (clampTemperature (11/10))) ∧
    0 ≤ clampTemperature (11/10) ∧ clampTemperature (11/10) ≤ 2 :=
  (temperature_clamped [] temp11Chat (11/10)).1 rfl (by norm_num)

/-- Claim C4: for every model mapping and every input body, the filtered
body contains `n = 1`, regardless of the input's `n`. -/
theorem n_forced_to_one (m : List (String × String)) (body : ChatBody) :
    (filterRequestBody m body).lookup "n" = some (JsVal.num 1) := by
  rw [filterRequestBody_lookup]; rfl

/-- Claim C5 (amended): on the forwarding routes (chat completions and image
generations), the proxy responds `401 {error: {message: "Missing Bearer
token"}}` with no upstream call exactly when the Authorization header is
missing, or when deleting the first occurrence of the literal `"Bearer "`
from it leaves the empty string; any other header value — including
malformed ones without a `Bearer ` prefix — is passed through as the token
and the request proceeds (on the chat route, forwarded upstream with the
filtered body). -/
theorem chat_auth_gate (m : List (String × String)) (auth : Option String)
    (body : ChatBody) (ib : ImageBody) :
    (auth = none →
      handleChatCompletion m auth body = .respond missingTokenResponse) ∧
    (∀ s, auth = some s → jsReplaceFirst "Bearer " s = "" →
      handleChatCompletion m auth body = .respond missingTokenResponse) ∧
    (∀ s, auth = some s → jsReplaceFirst "Bearer " s ≠ "" →
      handleChatCompletion m auth body
        = .forward (jsReplaceFirst "Bearer " s) (filterRequestBody m body)) ∧
    (auth = none →
      handleImageGenerationPhase m auth ib = .respond missingTokenResponse) ∧
    (∀ s, auth = some s → jsReplaceFirst "Bearer " s = "" →
      handleImageGenerationPhase m auth ib = .respond missingTokenResponse) := by
  refine ⟨?_, ?_, ?_, ?_, ?_⟩
  · intro h; subst h; rfl
  · intro s hs ht; subst hs
    simp [handleChatCompletion, getToken, ht]
  · intro s hs ht; subst hs
    simp [handleChatCompletion, getToken, ht]
  · intro h; subst h; rfl
  · intro s hs ht; subst hs
    simp [handleImageGenerationPhase, getToken, ht]

/-- Claim C5 counterexample: the malformed Authorization header `"abc"` is
not a well-formed `Bearer <token>`, yet the proxy does not respond 401 — it
forwards upstream with `"abc"` itself as the token (`getToken` only deletes
a `"Bearer "` substring and never checks the prefix). -/
theorem chat_auth_malformed_cex :
    handleChatCompletion [] (some "abc") emptyChat
      = .forward "abc" [("n", JsVal.num 1)] := rfl

/-- Claim C5 witness: the gate at a missing header, at the degenerate header
`"Bearer "`, and at a well-formed header. -/
theorem chat_auth_gate_w :
    handleChatCompletion [] none emptyChat = .respond missingTokenResponse ∧
    handleChatCompletion [] (some "Bearer ") emptyChat
      = .respond missingTokenResponse ∧
    handleChatCompletion [] (some "Bearer tok") emptyChat
      = .forward (jsReplaceFirst "Bearer " "Bearer tok")
          (filterRequestBody [] emptyChat) ∧
    handleImageGenerationPhase [] none ⟨"p", none⟩
      = .respond missingTokenResponse :=
  ⟨(chat_auth_gate [] none emptyChat ⟨"p", none⟩).1 rfl,
   (chat_auth_gate [] (some "Bearer ") emptyChat ⟨"p", none⟩).2.1 "Bearer " rfl rfl,
   (chat_auth_gate [] (some "Bearer tok") emptyChat ⟨"p", none⟩).2.2.1 "Bearer tok" rfl
      (by decide),
   (chat_auth_gate [] none emptyChat ⟨"p", none⟩).2.2.2.1 rfl⟩

/-- Claim C6 (amended): on an image-generation request bearing a usable
token: a `size` that is present, nonempty and different from `"1024x1024"`
is rejected with `400 {error: {message, type: "invalid_request_error",
param: "size", code: "invalid_size"}}` and no upstream call; an absent
`size` is defaulted to `"1024x1024"` and the request proceeds upstream; but
a present empty-string `size` is falsy in JS, so it too is defaulted and
proceeds instead of being rejected. -/
theorem image_size_validation (m : List (String × String))
    (auth : Option String) (body : ImageBody) (t : String)
    (htok : getToken auth = some t) (hne : t ≠ "") :
    (∀ sz, body.size = some sz → sz ≠ "" → sz ≠ "1024x1024" →
      handleImageGenerationPhase m auth body
        = .respond (invalidSizeResponse sz)) ∧
    (body.size = none →
      handleImageGenerationPhase m auth body
        = .callUpstream t "1024x1024" (imageChatRequest m body.prompt)) ∧
    (body.size = some "1024x1024" →
      handleImageGenerationPhase m auth body
        = .callUpstream t "1024x1024" (imageChatRequest m body.prompt)) ∧
    (body.size = some "" →
      handleImageGenerationPhase m auth body
        = .callUpstream t "1024x1024" (imageChatRequest m body.prompt)) := by
  refine ⟨?_, ?_, ?_, ?_⟩
  · intro sz hsz hszne hsz1024
    simp [handleImageGenerationPhase, htok, hne, hsz, sizeTruthy, hszne, hsz1024]
  · intro hsz
    simp [handleImageGenerationPhase, htok, hne, hsz, sizeTruthy]
  · intro hsz
    simp [handleImageGenerationPhase, htok, hne, hsz, sizeTruthy]
  · intro hsz
    simp [handleImageGenerationPhase, htok, hne, hsz, sizeTruthy]

/-- Claim C6 counterexample: a request with `size: ""` has size present and
different from `"1024x1024"`, yet the proxy does not respond 400 — the empty
string is falsy, so the code takes the absent-size branch, defaults the size
and proceeds to the upstream call. -/
theorem image_size_empty_cex :
    (⟨"p", some ""⟩ : ImageBody).size = some "" ∧
    some "" ≠ some "1024x1024" ∧
    handleImageGenerationPhase [] (some "Bearer tok") ⟨"p", some ""⟩
      = .callUpstream "tok" "1024x1024" (imageChatRequest [] "p") :=
  ⟨rfl, by decide, rfl⟩

/-- Claim C6 witness: the three outcomes at concrete requests — rejection of
`512x512`, default on absent size, acceptance of `1024x1024`. -/
theorem image_size_validation_w :
    handleImageGenerationPhase [] (some "Bearer tok") ⟨"p", some "512x512"⟩
      = .respond (invalidSizeResponse "512x512") ∧
    handleImageGenerationPhase [] (some "Bearer tok") ⟨"p", none⟩
      = .callUpstream "tok" "1024x1024" (imageChatRequest [] "p") ∧
    handleImageGenerationPhase [] (some "Bearer tok") ⟨"p", some "1024x1024"⟩
      = .callUpstream "tok" "1024x1024" (imageChatRequest [] "p") :=
  ⟨(image_size_validation [] (some "Bearer tok") ⟨"p", some "512x512"⟩ "tok"
      rfl (by decide)).1 "512x512" rfl (by decide) (by decide),
   (image_size_validation [] (some "Bearer tok") ⟨"p", none⟩ "tok"
      rfl (by decide)).2.1 rfl,
   (image_size_validation [] (some "Bearer tok") ⟨"p", some "1024x1024"⟩ "tok"
      rfl (by decide)).2.2.1 rfl⟩

/-- Claim C7: when the upstream call of the image handler returns a non-2xx
status, the proxy responds with that same status and a body
`{error: {message, type}}`, where the message is the upstream error message
(falling back to `"Upstream API error"` when it is missing — or empty, which
JS `||` treats the same way) and the type comes from the fixed status→type
table of `getErrorType`, with every status outside the table mapped to
`"unknown_error"`. -/
theorem image_upstream_error_shaping (now : Nat) (prompt : String)
    (u : UpstreamReply) (hnot2xx : responseOk u.status = false) :
    (handleImageUpstream now prompt u
      = ⟨u.status, .obj [("error", .obj
          [("message", .str (upstreamErrorMessage u.errorMessage)),
           ("type", .str (getErrorType u.status))])]⟩) ∧
    (∀ s, u.errorMessage = some s → s ≠ "" →
      upstreamErrorMessage u.errorMessage = s) ∧
    (u.errorMessage = none →
      upstreamErrorMessage u.errorMessage = "Upstream API error") ∧
    getErrorType 400 = "invalid_request_error" ∧
    getErrorType 401 = "authentication_error" ∧
    getErrorType 402 = "insufficient_credits" ∧
    getErrorType 403 = "moderation_error" ∧
    getErrorType 404 = "not_found_error" ∧
    getErrorType 408 = "timeout_error" ∧
    getErrorType 413 = "request_too_large" ∧
    getErrorType 429 = "rate_limit_error" ∧
    getErrorType 502 = "upstream_error" ∧
    getErrorType 529 = "overloaded_error" ∧
    (∀ s : Nat, s ∉ ([400, 401, 402, 403, 404, 408, 413, 429, 502, 529] : List Nat) →
      getErrorType s = "unknown_error") := by
  refine ⟨?_, ?_, ?_, rfl, rfl, rfl, rfl, rfl, rfl, rfl, rfl, rfl, rfl, ?_⟩
  · simp [handleImageUpstream, hnot2xx, imageErrorResponse]
  · intro s hs hne; simp [upstreamErrorMessage, hs, hne]
  · intro hs; simp [upstreamErrorMessage, hs]
  · intro s hs
    simp only [List.mem_cons, List.not_mem_nil, or_false, not_or] at hs
    obtain ⟨h1, h2, h3, h4, h5, h6, h7, h8, h9, h10⟩ := hs
    simp [getErrorType, h1, h2, h3, h4, h5, h6, h7, h8, h9, h10]

/-- Claim C7 witness: the shaping at a concrete upstream failure with status
500 (outside the table) and no parseable upstream message. -/
theorem image_upstream_error_shaping_w :
    handleImageUpstream 0 "p" ⟨500, none, none⟩
      = ⟨500, .obj [("error", .obj
          [("message", .str (upstreamErrorMessage none)),
           ("type", .str (getErrorType 500))])]⟩ ∧
    upstreamErrorMessage (none : Option String) = "Upstream API error" ∧
    getErrorType 500 = "unknown_error" :=
  ⟨(image_upstream_error_shaping 0 "p" ⟨500, none, none⟩ rfl).1,
   (image_upstream_error_shaping 0 "p" ⟨500, none, none⟩ rfl).2.2.1 rfl,
   (image_upstream_error_shaping 0 "p" ⟨500, none, none⟩ rfl).2.2.2.2.2.2.2.2.2.2.2.2.2
      500 (by decide)⟩

/-- Claim C9 (amended): the `GET /v1/models` listing contains every
ModelMapping key plus `"dall-e-3"`, each item carrying the request-time
`created` timestamp and `owned_by: "proxy"`; the identifiers are duplicate
free provided `"dall-e-3"` is not itself a ModelMapping key (it is appended
unconditionally, so a mapping that already has that key lists it twice). -/
theorem models_listing (m : List (String × String)) (now : Nat)
    (hk : (m.map Prod.fst).Nodup) (hd : "dall-e-3" ∉ m.map Prod.fst) :
    (modelIds m).Nodup ∧
    (∀ k v, (k, v) ∈ m → k ∈ modelIds m) ∧
    "dall-e-3" ∈ modelIds m ∧
    modelsResponse m now
      = ⟨200, .obj [("object", .str "list"),
          ("data", .arr ((modelIds m).map fun i =>
            .obj [("id", .str i), ("object", .str "model"),
                  ("created", .num now), ("owned_by", .str "proxy")]))]⟩ := by
  refine ⟨?_, ?_, ?_, rfl⟩
  · unfold modelIds
    rw [List.nodup_append]
    refine ⟨hk, List.nodup_singleton _, ?_⟩
    intro a ha hb
    simp only [List.mem_singleton] at hb
    subst hb
    exact hd ha
  · intro k v hkv
    unfold modelIds
    exact List.mem_append_left _ (List.mem_map_of_mem Prod.fst hkv)
  · unfold modelIds
    exact List.mem_append_right _ (List.mem_singleton_self _)

/-- Claim C9 counterexample: with the loaded mapping `{"dall-e-3": "x"}`,
the listing contains the identifier `"dall-e-3"` twice — the key list plus
the unconditionally appended `"dall-e-3"` — so "no duplicate identifiers"
fails on the code. -/
theorem models_listing_dup_cex :
    modelIds [("dall-e-3", "x")] = ["dall-e-3", "dall-e-3"] ∧
    ¬ (modelIds [("dall-e-3", "x")]).Nodup :=
  ⟨rfl, by decide⟩

/-- Claim C9 witness: the listing over the mapping `{"a": "b"}`. -/
theorem models_listing_w :
    (modelIds [("a", "b")]).Nodup ∧
    "a" ∈ modelIds [("a", "b")] ∧
    "dall-e-3" ∈ modelIds [("a", "b")] :=
  ⟨(models_listing [("a", "b")] 0 (by decide) (by decide)).1,
   (models_listing [("a", "b")] 0 (by decide) (by decide)).2.1 "a" "b"
      (List.mem_singleton_self _),
   (models_listing [("a", "b")] 0 (by decide) (by decide)).2.2.1⟩

theorem lookup_mapReplace_self (o : List (String × String)) (k v : String)
    (h : (o.lookup k).isSome) :
    (o.map fun p => if p.1 = k then (k, v) else p).lookup k = some v := by
  induction o with
  | nil => simp at h
  | cons p rest ih =>
    obtain ⟨a, b⟩ := p
    by_cases hak : a = k
    · subst hak; simp [List.lookup_cons]
    · have hb : (k == a) = false := beq_false_of_ne (Ne.symm hak)
      simp only [List.lookup_cons, hb] at h
      simp only [List.map_cons, if_neg hak, List.lookup_cons, hb]
      exact ih h

theorem lookup_mapReplace_ne (o : List (String × String)) (k v k' : String)
    (h : k' ≠ k) :
    (o.map fun p => if p.1 = k then (k, v) else p).lookup k' = o.lookup k' := by
  induction o with
  | nil => rfl
  | cons p rest ih =>
    obtain ⟨a, b⟩ := p
    by_cases hak : a = k
    · subst hak
      have hb : (k' == a) = false := beq_false_of_ne h
      simp only [List.map_cons, eq_self_iff_true, ite_true, List.lookup_cons, hb]
      exact ih
    · cases hka : (k' == a) with
      | true =>
        simp only [List.map_cons, if_neg hak, List.lookup_cons, hka]
      | false =>
        simp only [List.map_cons, if_neg hak, List.lookup_cons, hka]
        exact ih

theorem lookup_objInsert_self (o : List (String × String)) (k v : String) :
    (objInsert o k v).lookup k = some v := by
  unfold objInsert
  by_cases h : (o.lookup k).isSome
  · rw [if_pos h]
    exact lookup_mapReplace_self o k v h
  · rw [if_neg h]
    rw [List.lookup_append]
    rw [Option.not_isSome_iff_eq_none] at h
    simp [h]

theorem lookup_objInsert_ne (o : List (String × String)) (k v k' : String)
    (h : k' ≠ k) : (objInsert o k v).lookup k' = o.lookup k' := by
  unfold objInsert
  by_cases hs : (o.lookup k).isSome
  · rw [if_pos hs]
    exact lookup_mapReplace_ne o k v k' h
  · rw [if_neg hs]
    rw [List.lookup_append]
    have hnone : ([(k, v)] : List (String × String)).lookup k' = none := by
      simp [List.lookup_cons, beq_false_of_ne h]
    rw [hnone, Option.or_none]

theorem buildReverse_go_not_mem (m : List (String × String)) (v : String)
    (h : v ∉ m.map Prod.snd) (acc : List (String × String)) :
    (m.foldl (fun acc p => objInsert acc p.2 p.1) acc).lookup v
      = acc.lookup v := by
  induction m generalizing acc with
  | nil => rfl
  | cons p rest ih =>
    simp only [List.map_cons, List.mem_cons, not_or] at h
    obtain ⟨h1, h2⟩ := h
    rw [List.foldl_cons, ih h2]
    exact lookup_objInsert_ne acc p.2 p.1 v h1

theorem buildReverse_go_mem (m : List (String × String)) (k v : String)
    (hv : (m.map Prod.snd).Nodup) (hm : (k, v) ∈ m)
    (acc : List (String × String)) :
    (m.foldl (fun acc p => objInsert acc p.2 p.1) acc).lookup v = some k := by
  induction m generalizing acc with
  | nil => cases hm
  | cons p rest ih =>
    simp only [List.map_cons, List.nodup_cons] at hv
    obtain ⟨hp, hrest⟩ := hv
    rw [List.foldl_cons]
    rcases List.mem_cons.mp hm with heq | hmem
    · rw [← heq] at hp ⊢
      rw [buildReverse_go_not_mem rest v hp]
      exact lookup_objInsert_self acc v k
    · exact ih hrest hmem _

theorem mem_of_lookup_eq_some {l : List (String × String)} {k v : String}
    (h : l.lookup k = some v) : (k, v) ∈ l := by
  rw [List.lookup_eq_some_iff] at h
  obtain ⟨l₁, l₂, rfl, -⟩ := h
  exact List.mem_append_right _ (List.mem_cons_self _ _)

/-- Claim C8 (amended): after loading, `ReverseMapping[ModelMapping[k]] == k`
holds for every key `k` of ModelMapping provided no two keys map to the same
upstream name; when two keys share a value, the load-time loop overwrites,
so the reverse entry holds only the later of the two keys. -/
theorem reverse_mapping_invariant (m : List (String × String)) (k v : String)
    (hv : (m.map Prod.snd).Nodup) (hkv : m.lookup k = some v) :
    (buildReverse m).lookup v = some k := by
  unfold buildReverse
  exact buildReverse_go_mem m k v hv (mem_of_lookup_eq_some hkv) []

/-- Claim C8 counterexample: with the mapping `{"a": "v", "b": "v"}`, the
derived reverse mapping holds `{"v": "b"}` (the later key overwrote the
earlier), so `ReverseMapping[ModelMapping["a"]]` is `"b"`, not `"a"` — the
invariant fails on the code for the key `"a"`. -/
theorem reverse_mapping_cex :
    List.lookup "a" [("a", "v"), ("b", "v")] = some "v" ∧
    (buildReverse [("a", "v"), ("b", "v")]).lookup "v" = some "b" ∧
    (some "b" : Option String) ≠ some "a" :=
  ⟨rfl, by decide, by decide⟩

/-- Claim C8 witness: the invariant over the injective mapping
`{"a": "x", "b": "y"}` at the key `"a"`. -/
theorem reverse_mapping_invariant_w :
    (buildReverse [("a", "x"), ("b", "y")]).lookup "x" = some "a" :=
  reverse_mapping_invariant [("a", "x"), ("b", "y")] "a" "x" (by decide) rfl

/-- When the URL regex has no match in `s`, deleting all matches leaves `s`
unchanged. -/
theorem scanUrlsGo_no_match (f : Nat) (s : List Char)
    (h : (scanUrlsGo f s).1 = []) : (scanUrlsGo f s).2 = s := by
  induction f generalizing s with
  | zero => rfl
  | succ f ih =>
    cases s with
    | nil => rfl
    | cons c rest =>
      by_cases hp : leadsWith httpsLit (c :: rest) = true
      · by_cases hr :
          (((c :: rest).drop httpsLit.length).takeWhile urlChar).isEmpty = true
        · simp only [scanUrlsGo, hp, hr, if_true] at h ⊢
          rw [ih rest h]
        · simp [scanUrlsGo, hp, hr] at h
      · simp [scanUrlsGo, hp] at h ⊢
        rw [ih rest h]

/-- Claim C10: for every image-generation request that passes size
validation (the pre-`fetch` phase reaches the upstream call) and whose
upstream call returns HTTP success, the proxy responds 200 even when the
assistant's reply text has no substring matching the URL regex: then
`data[0].url` is the empty string, and `revised_prompt` is the trimmed
content, falling back to the original prompt when that is empty or shorter
than 10 characters — the absence of a URL is never surfaced as an error. -/
theorem image_no_url_success (m : List (String × String)) (auth : Option String)
    (body : ImageBody) (now : Nat) (u : UpstreamReply)
    (t sz : String) (cr : List (String × JsVal))
    (hphase : handleImageGenerationPhase m auth body = .callUpstream t sz cr)
    (hok : responseOk u.status = true)
    (c : String) (hc : u.content = some c)
    (hnourl : (scanUrls c.data).1 = []) :
    handleImageGeneration m auth body now u
      = ⟨200, .obj [("created", .num now), ("data", .arr [.obj
          [("revised_prompt",
            .str (if jsTrimS c = "" ∨ (jsTrimS c).length < 10 then body.prompt
                  else jsTrimS c)),
           ("url", .str "")]])]⟩ := by
  unfold handleImageGeneration
  rw [hphase]
  simp only [handleImageUpstream, hok, if_true, hc, Option.getD_some]
  have h2 : (scanUrls c.data).2 = c.data := scanUrlsGo_no_match _ _ hnourl
  simp only [imageSuccessResponse, hnourl, h2, List.head?_nil]
  rfl

/-- Claim C10 witness: a concrete authorized request with default size whose
upstream reply is a plain refusal sentence with no URL in it. -/
theorem image_no_url_success_w :
    handleImageGeneration [] (some "Bearer tok")
        ⟨"a very nice painting", none⟩ 0
        ⟨200, none, some "I cannot create images directly."⟩
      = ⟨200, .obj [("created", .num 0), ("data", .arr [.obj
          [("revised_prompt",
            .str (if jsTrimS "I cannot create images directly." = "" ∨
                     (jsTrimS "I cannot create images directly.").length < 10
                  then "a very nice painting"
                  else jsTrimS "I cannot create images directly.")),
           ("url", .str "")]])]⟩ :=
  image_no_url_success [] (some "Bearer tok") ⟨"a very nice painting", none⟩ 0
    ⟨200, none, some "I cannot create images directly."⟩ "tok" "1024x1024"
    (imageChatRequest [] "a very nice painting") rfl rfl
    "I cannot create images directly." rfl (by decide)
